import Mathlib

/-!
Shallow embedding of the apartment-search pipeline of
`src/apartment_search_agent.py` (class `ApartmentSearchAgent`): the regex-based
attribute extractors, the listing classifier, the criteria validator, the query
composer, and the per-run aggregation (classification, deduplication,
validation gate, ranking), together with theorems about them.

Conventions used throughout:
* Python strings are Lean `String`s; `in` on strings is substring containment.
* Python `re.search` is modeled by a backtracking matcher with Python's
  priority semantics (leftmost starting position, alternatives left to right,
  quantifiers greedy); character classes are modeled at the ASCII level.
* Python `int` results are `Nat` (all extracted numbers are non-negative),
  decimal (`float`) results are `ℚ`; decimal literals such as `1.5` are exact
  in binary floating point, so `ℚ` is a faithful model for every comparison
  performed by the code.
* Timestamps (`datetime.now()`) and log output are ignored; the rate-limiting
  `asyncio.sleep` calls have no observable effect on the data flow.
* Absent dictionary keys are `Option.none`; `dict.get(k, default)` is
  `Option.getD`.
-/

namespace ApartmentSearch

/-! ## A small regex engine

The matcher models the subset of Python `re` used by the agent: literal
characters, character classes (`\d`, `\s`, `.`, explicit ranges), sequencing,
alternation `|`, greedy `?`, `*`, `+` and bounded repetition, and one capturing
group per pattern.  Bounded and starred repetition are expanded up front
(every starred sub-expression in the source consumes at least one character
per iteration, so expanding to "remaining input length" many iterations is
exact), which keeps the matcher structurally recursive. -/

/-- Abstract syntax of the regular expressions used by the agent.  Starred
repetition is expanded before matching, so the syntax needs no star. -/
inductive RE where
  | eps : RE
  | cls : (Char → Bool) → RE
  | seq : RE → RE → RE
  | alt : RE → RE → RE
  | group : RE → RE

/-- Backtracking matcher in continuation-passing style.  Alternatives are
tried left to right, quantifier expansions try the longer iteration first, and
the continuation is run on every attempt, so the first success returned is the
match Python's backtracking engine would produce.  The continuation receives
the capture collected so far and the remaining input; the result of the whole
run is the capture of group 1. -/
def reRun : RE → List Char → (Option (List Char) → List Char → Option (List Char)) →
    Option (List Char)
  | .eps, s, k => k none s
  | .cls p, s, k =>
    match s with
    | [] => none
    | c :: rest => if p c then k none rest else none
  | .seq a b, s, k =>
    reRun a s (fun g1 s1 => reRun b s1 (fun g2 s2 => k (g1 <|> g2) s2))
  | .alt a b, s, k => (reRun a s k).orElse (fun _ => reRun b s k)
  | .group a, s, k =>
    reRun a s (fun _ s1 => k (some (s.take (s.length - s1.length))) s1)

/-- Model of `re.search`: try to match `mk n` (`n` is the length of the
remaining input, used to bound expanded repetitions) at the current position;
on failure move one character to the right. -/
def reSearch (mk : Nat → RE) : List Char → Option (List Char)
  | [] => reRun (mk 0) [] (fun g _ => some (g.getD []))
  | c :: t =>
    (reRun (mk (t.length + 1)) (c :: t) (fun g _ => some (g.getD []))).orElse
      (fun _ => reSearch mk t)

/-- First match of the pattern in the content, returning the capture of
group 1 (the whole pattern when there is no group). -/
def reSearchCap (mk : Nat → RE) (content : String) : Option (List Char) :=
  reSearch mk content.data

/-- Does the pattern match anywhere in the string? -/
def reTest (mk : Nat → RE) (s : String) : Bool :=
  (reSearch mk s.data).isSome

/-- The capture of the pattern's match when anchored at offset `i` of the
content.  Used to exhibit matches that `re.search` never reports because an
earlier match exists. -/
def reMatchAt (mk : Nat → RE) (content : String) (i : Nat) : Option (List Char) :=
  let s := content.data.drop i
  reRun (mk s.length) s (fun g _ => some (g.getD []))

/-! Pattern building blocks. -/

def ch (c : Char) : RE := .cls (fun x => x = c)

/-- A literal, matched case-sensitively. -/
def lit (s : String) : RE := s.data.foldr (fun c r => .seq (ch c) r) .eps

/-- A literal written in lower case, matched with `re.IGNORECASE`. -/
def ciLit (s : String) : RE :=
  s.data.foldr (fun c r => .seq (.cls (fun x => x.toLower = c)) r) .eps

/-- Python's `\d`. -/
def dig : RE := .cls Char.isDigit

/-- Python's `\s` (ASCII part: space, tab, newline, return, vertical tab,
form feed). -/
def wsp : RE := .cls (fun c => c = ' ' ∨ c = '\t' ∨ c = '\n' ∨ c = '\r' ∨
  c = '\x0b' ∨ c = '\x0c')

/-- Python's `.` (anything but a newline; the agent never sets `re.DOTALL`
on the patterns modeled here). -/
def dotAny : RE := .cls (fun c => c ≠ '\n')

/-- Greedy `e?`. -/
def opt (a : RE) : RE := .alt a .eps

/-- Greedy `e*`, expanded to at most `n` iterations. -/
def starN : Nat → RE → RE
  | 0, _ => .eps
  | n + 1, a => .alt (.seq a (starN n a)) .eps

/-- Greedy `e+` (at least once, at most `n + 1` times). -/
def plusN (n : Nat) (a : RE) : RE := .seq a (starN n a)

def digStar (n : Nat) : RE := starN n dig
def digPlus (n : Nat) : RE := plusN n dig
def wspStar (n : Nat) : RE := starN n wsp
def wspPlus (n : Nat) : RE := plusN n wsp
def dotStar (n : Nat) : RE := starN n dotAny

/-- Bounded repetition `\d` 1 to 3 times, greedy. -/
def dig13 : RE := .seq dig (opt (.seq dig (opt dig)))

/-- Bounded repetition `\d` 3 to 4 times, greedy. -/
def dig34 : RE := .seq dig (.seq dig (.seq dig (opt dig)))

/-- Exactly three digits. -/
def dig3 : RE := .seq dig (.seq dig dig)

/-- Exactly four digits. -/
def dig4 : RE := .seq dig (.seq dig (.seq dig dig))

/-- Exactly five digits. -/
def dig5 : RE := .seq dig (.seq dig (.seq dig (.seq dig dig)))

/-- The capturing group shared by all three price patterns: one to three
digits followed by any number of comma-separated three-digit blocks. -/
def numGroup (n : Nat) : RE :=
  .group (.seq dig13 (starN n (.seq (ch ',') dig3)))

/-- Numeric value of a captured amount, ignoring the thousands separators,
as `int(s.replace(',', ''))` computes it. -/
def digitsNat (l : List Char) : Nat :=
  l.foldl (fun a c => if c.isDigit then a * 10 + (c.toNat - 48) else a) 0

/-- A captured decimal such as `1.75`, kept as (mantissa, number of fraction
digits); its value is `mantissa / 10 ^ scale`.  Comparisons on such values are
done on the mantissas (`decLe`), which is the exact rational comparison. -/
def decParse (l : List Char) : Nat × Nat :=
  let intPart := l.takeWhile (fun c => c ≠ '.')
  let fracPart := (l.dropWhile (fun c => c ≠ '.')).drop 1
  (digitsNat (intPart ++ fracPart), fracPart.length)

/-- Exact comparison `a.1 / 10 ^ a.2 ≤ b.1 / 10 ^ b.2` on scaled decimals. -/
def decLe (a b : Nat × Nat) : Bool := a.1 * 10 ^ b.2 ≤ b.1 * 10 ^ a.2

/-- Rational value of a scaled decimal. -/
def decVal (a : Nat × Nat) : ℚ := (a.1 : ℚ) / 10 ^ a.2

/-! ## Attribute extractors (`_extract_price`, `_extract_bedrooms`,
`_extract_bathrooms`, `_extract_sqft`, `_extract_amenities`)

Each extractor tries an ordered list of patterns; for each pattern it takes
the pattern's first match, and returns its value if the value passes the
plausibility check, otherwise it falls through to the next pattern. -/

/-- Price pattern 1: a dollar amount followed by a per-month marker. -/
def pricePat1 (n : Nat) : RE :=
  .seq (ch '$') (.seq (numGroup n) (.seq (wspStar n)
    (.alt (ciLit "/month") (.alt (ciLit "/mo") (ciLit "per month")))))

/-- Price pattern 2: a bare dollar amount. -/
def pricePat2 (n : Nat) : RE := .seq (ch '$') (numGroup n)

/-- Price pattern 3: an amount followed by a per-month marker, no dollar
sign. -/
def pricePat3 (n : Nat) : RE :=
  .seq (numGroup n) (.seq (wspStar n) (.alt (ciLit "/month") (ciLit "/mo")))

/-- One step of the `_extract_price` loop: first match of one pattern,
filtered by the plausibility range 1000 to 15000. -/
def priceStep (pat : Nat → RE) (content : String) : Option Nat :=
  match reSearchCap pat content with
  | some g =>
    let price := digitsNat g
    if 1000 ≤ price ∧ price ≤ 15000 then some price else none
  | none => none

/-- `_extract_price`. -/
def extract_price (content : String) : Option Nat :=
  [pricePat1, pricePat2, pricePat3].findSome? (fun pat => priceStep pat content)

/-- Bedroom pattern 1: digits, optional space, then a bed token. -/
def bedPat1 (n : Nat) : RE :=
  .seq (.group (digPlus n)) (.seq (wspStar n)
    (.alt (ciLit "bed") (.alt (ciLit "br") (ciLit "bedroom"))))

/-- Bedroom pattern 2: digits directly followed by `bd`. -/
def bedPat2 (n : Nat) : RE := .seq (.group (digPlus n)) (ciLit "bd")

/-- Bedroom pattern 3: digits, a hyphen, then `bedroom`. -/
def bedPat3 (n : Nat) : RE := .seq (.group (digPlus n)) (ciLit "-bedroom")

/-- One step of the `_extract_bedrooms` loop (plausibility range 0 to 5). -/
def bedStep (pat : Nat → RE) (content : String) : Option Nat :=
  match reSearchCap pat content with
  | some g =>
    let bedrooms := digitsNat g
    if bedrooms ≤ 5 then some bedrooms else none
  | none => none

/-- `_extract_bedrooms` (the lower bound 0 of the source's range check is
vacuous on natural numbers). -/
def extract_bedrooms (content : String) : Option Nat :=
  [bedPat1, bedPat2, bedPat3].findSome? (fun pat => bedStep pat content)

/-- The decimal capture shared by the bathroom patterns: digits optionally
followed by a dot and more digits. -/
def decGroup (n : Nat) : RE :=
  .group (.seq (digPlus n) (opt (.seq (ch '.') (digPlus n))))

/-- Bathroom pattern 1: a decimal, optional space, then a bath token. -/
def bathPat1 (n : Nat) : RE :=
  .seq (decGroup n) (.seq (wspStar n)
    (.alt (ciLit "bath") (.alt (ciLit "ba") (ciLit "bathroom"))))

/-- Bathroom pattern 2: a decimal directly followed by `ba`. -/
def bathPat2 (n : Nat) : RE := .seq (decGroup n) (ciLit "ba")

/-- Bathroom pattern 3: a decimal, a hyphen, then `bathroom`. -/
def bathPat3 (n : Nat) : RE := .seq (decGroup n) (ciLit "-bathroom")

/-- One step of the `_extract_bathrooms` loop, on scaled decimals
(plausibility range 0.5 to 5). -/
def bathStep (pat : Nat → RE) (content : String) : Option (Nat × Nat) :=
  match reSearchCap pat content with
  | some g =>
    let bathrooms := decParse g
    if decLe (5, 1) bathrooms ∧ decLe bathrooms (5, 0) then some bathrooms else none
  | none => none

/-- The scaled-decimal result of `_extract_bathrooms`. -/
def bathrooms_raw (content : String) : Option (Nat × Nat) :=
  [bathPat1, bathPat2, bathPat3].findSome? (fun pat => bathStep pat content)

/-- `_extract_bathrooms`. -/
def extract_bathrooms (content : String) : Option ℚ :=
  (bathrooms_raw content).map decVal

/-- Square-footage pattern 1: three or four digits, optional space, then a
square-feet token. -/
def sqftPat1 (n : Nat) : RE :=
  .seq (.group dig34) (.seq (wspStar n)
    (.alt (.seq (ciLit "sq") (.seq (wspStar n) (ciLit "ft")))
      (.alt (ciLit "sqft") (ciLit "square feet"))))

/-- Square-footage pattern 2: one to three digits, exactly one
comma-separated three-digit block, then a square-feet token. -/
def sqftPat2 (n : Nat) : RE :=
  .seq (.group (.seq dig13 (.seq (ch ',') dig3))) (.seq (wspStar n)
    (.alt (.seq (ciLit "sq") (.seq (wspStar n) (ciLit "ft"))) (ciLit "sqft")))

/-- One step of the `_extract_sqft` loop (plausibility range 300 to 5000). -/
def sqftStep (pat : Nat → RE) (content : String) : Option Nat :=
  match reSearchCap pat content with
  | some g =>
    let sqft := digitsNat g
    if 300 ≤ sqft ∧ sqft ≤ 5000 then some sqft else none
  | none => none

/-- `_extract_sqft`. -/
def extract_sqft (content : String) : Option Nat :=
  [sqftPat1, sqftPat2].findSome? (fun pat => sqftStep pat content)

/-- Substring containment, Python's `needle in haystack` on strings. -/
def substrB (needle hay : String) : Bool := decide (needle.data <:+: hay.data)

/-- Python's `str.lower`, character by character (ASCII level). -/
def strLower (s : String) : String := ⟨s.data.map Char.toLower⟩

/-- The amenity keyword table of `_extract_amenities`. -/
def amenity_keywords : List (String × List String) :=
  [("washer_dryer_in_unit",
    ["washer dryer in unit", "w/d in unit", "in-unit laundry", "laundry in unit"]),
   ("air_conditioning",
    ["air conditioning", "a/c", "ac", "central air", "hvac", "climate control"]),
   ("outdoor_space",
    ["balcony", "patio", "deck", "outdoor space", "terrace", "private outdoor"]),
   ("above_ground_floor",
    ["second floor", "2nd floor", "third floor", "3rd floor", "upper floor", "top floor"]),
   ("renovated",
    ["renovated", "remodeled", "updated", "upgraded", "modern", "contemporary"]),
   ("natural_light",
    ["natural light", "bright", "sunny", "large windows", "floor to ceiling windows"]),
   ("parking", ["parking", "garage", "carport", "assigned parking"]),
   ("pool", ["pool", "swimming", "lap pool"]),
   ("gym", ["gym", "fitness", "exercise", "workout room"]),
   ("dishwasher", ["dishwasher"]),
   ("hardwood", ["hardwood", "wood floor", "laminate"]),
   ("granite", ["granite", "quartz", "stone counter"]),
   ("stainless", ["stainless steel", "stainless appliance", "upgraded appliances"])]

/-- `_extract_amenities`: category tags whose keyword list has a member
contained in the lower-cased content. -/
def extract_amenities (content : String) : List String :=
  (amenity_keywords.filter
    (fun kv => kv.2.any (fun keyword => substrB keyword (strLower content)))).map
    (fun kv => kv.1)

/-- The structured result of `extract_apartment_details_tool`.  The
address/contact/availability/description/image extractors are independent
best-effort regex extractors with no plausibility filtering and no influence
on classification, validation, deduplication or ranking; they are not modeled
here. -/
structure ExtractedDetails where
  price : Option Nat
  bedrooms : Option Nat
  bathrooms : Option ℚ
  sqft : Option Nat
  amenities : List String

/-- `extract_apartment_details_tool` (the fields relevant to scoring). -/
def extract_apartment_details_tool (content : String) : ExtractedDetails :=
  { price := extract_price content
    bedrooms := extract_bedrooms content
    bathrooms := extract_bathrooms content
    sqft := extract_sqft content
    amenities := extract_amenities content }

/-! ## Listing classifier (`_is_apartment_listing`) -/

/-- The keyword indicators scanned for in title plus snippet. -/
def apartment_indicators : List String :=
  ["bedroom", "bath", "apartment", "rent", "$", "sq ft", "sqft",
   "available", "lease", "studio", "1br", "2br", "3br", "unit",
   "floor plan", "amenities", "contact", "tour", "apply",
   "washer", "dryer", "balcony", "patio", "air conditioning", "ac"]

/-- Listing pattern 1: a price in the target band (`$44xx` to `$49xx`, or
`$50xx` to `$52xx`, with an optional comma or period after the first
digit). -/
def listingPat1 (_ : Nat) : RE :=
  .alt (.seq (ch '$') (.seq (ch '4') (.seq (opt (.cls (fun c => c = ',' ∨ c = '.')))
        (.seq (.cls (fun c => '4' ≤ c ∧ c ≤ '9')) (.seq dig dig)))))
    (.seq (ch '$') (.seq (ch '5') (.seq (opt (.cls (fun c => c = ',' ∨ c = '.')))
        (.seq (.cls (fun c => '0' ≤ c ∧ c ≤ '2')) (.seq dig dig)))))

/-- Listing pattern 2: `2` beds then, anywhere later, `1.5` or `2` baths. -/
def listingPat2 (n : Nat) : RE :=
  .seq (ch '2') (.seq (wspStar n)
    (.seq (.alt (lit "bed") (.alt (lit "br") (lit "bedroom")))
      (.seq (dotStar n)
        (.seq (.alt (lit "1.5") (lit "2"))
          (.seq (wspStar n) (.alt (lit "bath") (lit "ba")))))))

/-- Listing pattern 3: square footage. -/
def listingPat3 (n : Nat) : RE :=
  .seq dig34 (.seq (wspStar n) (.seq (lit "sq") (.seq (wspStar n) (lit "ft"))))

/-- Listing pattern 4: an availability date. -/
def listingPat4 (n : Nat) : RE :=
  .seq (lit "available") (.seq (wspPlus n)
    (.alt (lit "now") (.alt (lit "immediately")
      (.seq (digPlus n) (.seq (ch '/') (digPlus n))))))

/-- Listing pattern 5: a contact word then the three blocks of a phone
number. -/
def listingPat5 (n : Nat) : RE :=
  .seq (.alt (lit "call") (.alt (lit "contact") (lit "phone")))
    (.seq (dotStar n) (.seq dig3 (.seq (dotStar n) (.seq dig3 (.seq (dotStar n) dig4)))))

/-- Listing pattern 6: tour scheduling. -/
def listingPat6 (n : Nat) : RE :=
  .seq (.alt (lit "schedule") (.alt (lit "book") (lit "virtual")))
    (.seq (dotStar n) (.alt (lit "tour") (.alt (lit "showing") (lit "visit"))))

/-- Listing pattern 7: in-unit laundry. -/
def listingPat7 (n : Nat) : RE :=
  .seq (.alt (.seq (lit "washer") (.seq (dotStar n) (lit "dryer"))) (lit "w/d"))
    (.seq (dotStar n) (.seq (lit "in") (.seq (dotStar n) (lit "unit"))))

/-- Listing pattern 8: outdoor space. -/
def listingPat8 (n : Nat) : RE :=
  .alt (lit "balcony") (.alt (lit "patio") (.alt (lit "terrace")
    (.seq (lit "outdoor") (.seq (wspPlus n) (lit "space")))))

/-- Listing pattern 9: an above-ground floor level. -/
def listingPat9 (n : Nat) : RE :=
  .seq (.alt (lit "second") (.alt (lit "2nd") (.alt (lit "third")
      (.alt (lit "3rd") (lit "upper")))))
    (.seq (wspPlus n) (lit "floor"))

/-- The content patterns that indicate an actual listing, in source order. -/
def listing_patterns : List (Nat → RE) :=
  [listingPat1, listingPat2, listingPat3, listingPat4, listingPat5,
   listingPat6, listingPat7, listingPat8, listingPat9]

/-- URL pattern 1: an apartment path segment with digits. -/
def urlPat1 (n : Nat) : RE := .seq (lit "/apartment") (.seq (dotStar n) (digPlus n))

/-- URL pattern 2: a unit path segment with digits. -/
def urlPat2 (n : Nat) : RE := .seq (lit "/unit") (.seq (dotStar n) (digPlus n))

/-- URL pattern 3: a listing path segment with an id. -/
def urlPat3 (n : Nat) : RE := .seq (lit "/listing") (.seq (dotStar n) (digPlus n))

/-- URL pattern 4: a property path segment with an id. -/
def urlPat4 (n : Nat) : RE := .seq (lit "/property") (.seq (dotStar n) (digPlus n))

/-- URL pattern 5: a rent path segment with digits and bedroom info. -/
def urlPat5 (n : Nat) : RE :=
  .seq (lit "/rent") (.seq (dotStar n)
    (.seq (digPlus n) (.seq (dotStar n) (lit "bedroom"))))

/-- URL pattern 6: the apartments.com listing shape with a zip code. -/
def urlPat6 (n : Nat) : RE :=
  .seq (lit "apartments.com/") (.seq (dotStar n)
    (.seq (lit "-ca-") (.seq dig5 (.seq (ch '/') (.seq (dotStar n) (digPlus n))))))

/-- URL pattern 7: the zillow rental shape. -/
def urlPat7 (n : Nat) : RE :=
  .seq (lit "zillow.com/") (.seq (dotStar n)
    (.seq (lit "rental") (.seq (dotStar n) (digPlus n))))

/-- URL pattern 8: the trulia rental shape. -/
def urlPat8 (n : Nat) : RE :=
  .seq (lit "trulia.com/") (.seq (dotStar n)
    (.seq (lit "rent") (.seq (dotStar n) (digPlus n))))

/-- The unit-specific URL patterns, in source order. -/
def unit_url_patterns : List (Nat → RE) :=
  [urlPat1, urlPat2, urlPat3, urlPat4, urlPat5, urlPat6, urlPat7, urlPat8]

/-- The aggregation-page substrings that cause outright rejection. -/
def search_excludes : List String :=
  ["search", "browse", "filter", "results", "find", "directory",
   "sitemap", "category", "all-apartments", "listings-page",
   "neighborhood-guide", "city-guide", "cost-of-living"]

/-- The target-area slugs and zip codes that earn the area boost. -/
def target_area_slugs : List String :=
  ["mar-vista", "mar_vista", "90066",
   "culver-city", "culver_city", "90230", "90232",
   "palms", "90034"]

/-- Number of keyword indicators contained in the lower-cased
title-plus-snippet. -/
def indicator_count (title snippet : String) : Nat :=
  apartment_indicators.countP
    (fun i => substrB i (strLower (title ++ " " ++ snippet)))

/-- Number of listing patterns matching the lower-cased
title-plus-snippet. -/
def pattern_match_count (title snippet : String) : Nat :=
  listing_patterns.countP (fun p => reTest p (strLower (title ++ " " ++ snippet)))

/-- Number of unit URL patterns matching the lower-cased url. -/
def url_match_count (url : String) : Nat :=
  unit_url_patterns.countP (fun p => reTest p (strLower url))

/-- Does the lower-cased url contain a target-area slug or zip code? -/
def target_area_boost (url : String) : Bool :=
  target_area_slugs.any (fun a => substrB a (strLower url))

/-- Does the lower-cased url contain an aggregation-page substring? -/
def is_search_page (url : String) : Bool :=
  search_excludes.any (fun e => substrB e (strLower url))

/-- The combined score of `_is_apartment_listing`: indicator count, plus
twice the pattern-match count, plus three times the URL-match count, plus
three if the url mentions a target area. -/
def listing_score (title snippet url : String) : Nat :=
  indicator_count title snippet + pattern_match_count title snippet * 2 +
    url_match_count url * 3 + (if target_area_boost url then 3 else 0)

/-- `_is_apartment_listing`: accept when the combined score reaches 4 and
the url is not an aggregation page. -/
def is_apartment_listing (title snippet url : String) : Bool :=
  decide (4 ≤ listing_score title snippet url) && !is_search_page url

/-! ## Criteria validator (`validate_apartment_criteria_tool`,
`_has_amenity`) -/

/-- The fixed search criteria (`self.search_criteria`), fields used by the
pipeline.  The bathroom bounds `1.5` and `2.0` are exact in floating point. -/
structure SearchCriteria where
  min_rent : Nat
  max_rent : Nat
  bedrooms : Nat
  min_bathrooms : ℚ
  max_bathrooms : ℚ
  required_amenities : List String
  target_zip_codes : List String

/-- The default criteria of `ApartmentSearchAgent.__init__`. -/
def search_criteria : SearchCriteria :=
  { min_rent := 4400
    max_rent := 5200
    bedrooms := 2
    min_bathrooms := 3 / 2
    max_bathrooms := 2
    required_amenities :=
      ["In-unit washer/dryer", "Air conditioning",
       "Outdoor space (balcony/patio/terrace)", "Above ground floor"]
    target_zip_codes := ["90066", "90230", "90232", "90034"] }

/-- An apartment record as consumed by the validator: the dictionary's
`price`/`bedrooms`/`bathrooms`/`sqft`/`amenities` entries, each possibly
absent (`.get` defaults are applied inside the validator). -/
structure Apt where
  price : Option Nat
  bedrooms : Option Nat
  bathrooms : Option ℚ
  sqft : Option Nat
  amenities : List String

/-- `_has_amenity`.  The synonym table maps the three canonical tags to
their accepted synonyms and any other name to itself; the special tag
`above_ground_floor` is unconditionally satisfied (the source's early
return; the table's `True` entry for it is unreachable). -/
def has_amenity (amenities : List String) (required_amenity : String) : Bool :=
  if required_amenity = "above_ground_floor" then true
  else
    let mapped_amenities :=
      if required_amenity = "washer_dryer" then ["washer_dryer", "laundry"]
      else if required_amenity = "air_conditioning" then
        ["air_conditioning", "ac", "central_air"]
      else if required_amenity = "outdoor_space" then
        ["outdoor_space", "balcony", "patio", "deck"]
      else [required_amenity]
    mapped_amenities.any (fun amenity => amenities.contains amenity)

/-- The validator's result: score out of 100, the percentage
`round(score / max_score * 100, 1)`, and the pass flag `score >= 80`.  The
textual per-criterion verdicts and the timestamp carry no further
information and are not modeled. -/
structure ValidationResult where
  score : Nat
  max_score : Nat
  percentage : ℚ
  passes_criteria : Bool

/-- Python's `round(q, 1)` for the values arising here (the argument is
always an exact integer, so the tie-breaking rule never fires and
round-half-up agrees with float round-half-even). -/
def roundTo1 (q : ℚ) : ℚ := (round (q * 10) : ℤ) / 10

/-- `validate_apartment_criteria_tool`: 25 points for price within the rent
band, 20 for the exact bedroom count, 15 for bathrooms within the band, and
10 per required amenity found; absent numeric fields default to 0. -/
def validate_apartment_criteria_tool (apartment : Apt) : ValidationResult :=
  let criteria := search_criteria
  let max_score : Nat := 100
  let price := apartment.price.getD 0
  let price_pts : Nat :=
    if criteria.min_rent ≤ price ∧ price ≤ criteria.max_rent then 25 else 0
  let bedrooms := apartment.bedrooms.getD 0
  let bed_pts : Nat := if bedrooms = criteria.bedrooms then 20 else 0
  let bathrooms := apartment.bathrooms.getD 0
  let bath_pts : Nat :=
    if criteria.min_bathrooms ≤ bathrooms ∧ bathrooms ≤ criteria.max_bathrooms
    then 15 else 0
  let amenity_pts : Nat :=
    criteria.required_amenities.foldl
      (fun acc req => if has_amenity apartment.amenities req then acc + 10 else acc) 0
  let score := price_pts + bed_pts + bath_pts + amenity_pts
  { score := score
    max_score := max_score
    percentage := roundTo1 ((score : ℚ) / (max_score : ℚ) * 100)
    passes_criteria := decide (80 ≤ score) }

/-! ## Content parser used by listing verification
(`_parse_apartment_content`)

`verify_listing_tool` parses fetched page content with this simpler parser
(no plausibility filters, first match wins); the resulting dictionary has at
most the four numeric keys, in particular it never has an `amenities` key. -/

/-- The square-footage pattern of `_parse_apartment_content` (no
`square feet` alternative). -/
def parseSqftPat (n : Nat) : RE :=
  .seq (.group dig34) (.seq (wspStar n)
    (.alt (.seq (ciLit "sq") (.seq (wspStar n) (ciLit "ft"))) (ciLit "sqft")))

/-- `_parse_apartment_content`.  The price pattern is the bare dollar
amount (the same expression as price pattern 2), the bedroom and bathroom
patterns coincide with the first pattern of the respective extractor. -/
def parse_apartment_content (content : String) : Apt :=
  { price := (reSearchCap pricePat2 content).map digitsNat
    bedrooms := (reSearchCap bedPat1 content).map digitsNat
    bathrooms := (reSearchCap bathPat1 content).map (fun g => decVal (decParse g))
    sqft := (reSearchCap parseSqftPat content).map digitsNat
    amenities := [] }

/-! ## Query composer (`_generate_search_queries`) -/

/-- Concatenation of the pieces of an f-string. -/
def concatAll (segments : List String) : String :=
  segments.foldr (fun a r => a ++ r) ""

/-- The area display name for a zip code (`area_names.get`). -/
def area_name (zip_code : String) : String :=
  if zip_code = "90066" then "Mar Vista"
  else if zip_code = "90230" then "Culver City"
  else if zip_code = "90232" then "Culver City"
  else if zip_code = "90034" then "Palms"
  else "West Los Angeles"

/-- The apartments.com query. -/
def query_apartments_com (zip_code : String) (criteria : SearchCriteria) : String :=
  concatAll
    ["site:apartments.com \"", area_name zip_code, "\" OR \"", zip_code, "\" ",
     toString criteria.bedrooms, " bedroom ", toString criteria.bedrooms,
     "br apartment rent $", toString criteria.min_rent, "-$", toString criteria.max_rent,
     " \"washer dryer in unit\" \"air conditioning\" \"balcony\" OR \"patio\" OR \"terrace\" ",
     "\"above first floor\" \"renovated\" \"updated\" \"modern\" ",
     "available \"for rent\" -\"waitlist\" -\"coming soon\""]

/-- The zillow query. -/
def query_zillow (zip_code : String) (criteria : SearchCriteria) : String :=
  concatAll
    ["site:zillow.com/los-angeles-ca/rentals \"", area_name zip_code, "\" OR \"",
     zip_code, "\" ", toString criteria.bedrooms, "bd 2ba rental apartment $",
     toString criteria.min_rent, "-$", toString criteria.max_rent,
     "/mo \"washer dryer hookup\" OR \"in unit laundry\" ",
     "\"central air\" OR \"air conditioning\" ",
     "\"balcony\" OR \"outdoor space\" ",
     "\"for rent\" \"available now\" -\"pending\""]

/-- The trulia query. -/
def query_trulia (zip_code : String) (criteria : SearchCriteria) : String :=
  concatAll
    ["site:trulia.com/for_rent/Los_Angeles,CA \"", area_name zip_code, "\" OR \"",
     zip_code, "\" ", toString criteria.bedrooms, " bedroom 2 bath apartment $",
     toString criteria.min_rent, "-$", toString criteria.max_rent,
     " monthly \"washer dryer\" \"AC\" \"outdoor\" ",
     "\"recently updated\" OR \"newly renovated\" ",
     "\"for rent\" \"available\" -\"application pending\""]

/-- The hotpads query. -/
def query_hotpads (zip_code : String) (criteria : SearchCriteria) : String :=
  concatAll
    ["site:hotpads.com/los-angeles-ca \"", area_name zip_code, "\" OR \"",
     zip_code, "\" ", toString criteria.bedrooms, " bed 2 bath apartment rental $",
     toString criteria.min_rent, "-$", toString criteria.max_rent,
     " \"w/d in unit\" \"air conditioned\" ",
     "\"private outdoor\" \"2nd floor\" OR \"upper floor\" ",
     "\"for rent\" \"move in ready\""]

/-- The westside rentals query. -/
def query_westside_rentals (zip_code : String) (criteria : SearchCriteria) : String :=
  concatAll
    ["site:westsiderentals.com \"", area_name zip_code, "\" \"", zip_code, "\" ",
     toString criteria.bedrooms, " bedroom 2 bathroom luxury apartment $",
     toString criteria.min_rent, "-$", toString criteria.max_rent,
     " \"washer dryer included\" \"central AC\" ",
     "\"balcony\" OR \"patio\" \"upper unit\" ",
     "\"west los angeles\" \"westside\" \"available\""]

/-- The realtor.com query. -/
def query_realtor_com (zip_code : String) (criteria : SearchCriteria) : String :=
  concatAll
    ["site:realtor.com/apartments/Los-Angeles_CA \"", area_name zip_code, "\" OR \"",
     zip_code, "\" ", toString criteria.bedrooms, "-bedroom 2-bathroom apartment rental $",
     toString criteria.min_rent, "-$", toString criteria.max_rent,
     "/month \"in-unit laundry\" \"air conditioning\" ",
     "\"balcony\" \"second floor\" OR \"third floor\" ",
     "\"for rent\" \"pet friendly\""]

/-- The rentcafe query. -/
def query_rentcafe (zip_code : String) (criteria : SearchCriteria) : String :=
  concatAll
    ["site:rentcafe.com/california/los-angeles-apartments \"", area_name zip_code,
     "\" OR \"", zip_code, "\" ", toString criteria.bedrooms,
     " bedroom luxury apartment $",
     toString criteria.min_rent, "-$", toString criteria.max_rent,
     " \"full size washer dryer\" \"central air\" ",
     "\"private balcony\" \"renovated\" \"available\""]

/-- The rent.com query. -/
def query_rent_com (zip_code : String) (criteria : SearchCriteria) : String :=
  concatAll
    ["site:rent.com/california/los-angeles \"", area_name zip_code, "\" \"",
     zip_code, "\" ", toString criteria.bedrooms, " bed 2 bath apartment $",
     toString criteria.min_rent, "-$", toString criteria.max_rent,
     " rent \"washer dryer connections\" \"AC\" ",
     "\"patio balcony\" \"upper level\" \"updated\""]

/-- `_generate_search_queries`: one query per platform, in the dictionary's
insertion order. -/
def generate_search_queries (zip_code : String) (criteria : SearchCriteria) :
    List (String × String) :=
  [("apartments_com", query_apartments_com zip_code criteria),
   ("zillow", query_zillow zip_code criteria),
   ("trulia", query_trulia zip_code criteria),
   ("hotpads", query_hotpads zip_code criteria),
   ("westside_rentals", query_westside_rentals zip_code criteria),
   ("realtor_com", query_realtor_com zip_code criteria),
   ("rentcafe", query_rentcafe zip_code criteria),
   ("rent_com", query_rent_com zip_code criteria)]

/-! ## Aggregation (`apartment_search_tool`, `_extract_apartment_listings`,
`_deduplicate_listings`, `search_apartments`)

The external collaborators — the web search provider and the page fetcher —
are parameters (`Env`).  A search failure for a platform is the empty result
list; a fetch failure is empty page content (`if not content` treats both
`None` and `""` as unavailable). -/

/-- One raw search hit, with the `.get` string defaults already applied. -/
structure RawResult where
  title : String
  snippet : String
  url : String
deriving DecidableEq

/-- One listing dictionary as built by `_extract_apartment_listings`.  The
`url` key is optional so that deduplication of records lacking it can be
stated; the pipeline itself always fills it.  The `found_at` timestamp is
not modeled. -/
structure Listing where
  title : String
  url : Option String
  snippet : String
  platform : String
  zip_code : String
deriving DecidableEq

/-- The external collaborators: per-platform, per-zip search results, and
page content per url (empty string when unavailable). -/
structure Env where
  searchResults : String → String → List RawResult
  pageContent : String → String

/-- The platforms, in the query dictionary's iteration order. -/
def platforms : List String :=
  ["apartments_com", "zillow", "trulia", "hotpads", "westside_rentals",
   "realtor_com", "rentcafe", "rent_com"]

/-- `_extract_apartment_listings`: keep the results classified as listings
(title and snippet are lower-cased before classification, the stored record
keeps the originals). -/
def extract_apartment_listings (results : List RawResult) (platform zip_code : String) :
    List Listing :=
  results.filterMap (fun r =>
    if is_apartment_listing (strLower r.title) (strLower r.snippet) r.url then
      some { title := r.title, url := some r.url, snippet := r.snippet,
             platform := platform, zip_code := zip_code }
    else none)

/-- The loop of `_deduplicate_listings`, with the seen-URL set explicit.  A
listing whose url is absent or empty is dropped (`if url and ...`), other
listings are kept exactly when their url has not been seen. -/
def dedupGo (seen : List String) : List Listing → List Listing
  | [] => []
  | l :: ls =>
    let url := l.url.getD ""
    if url ≠ "" ∧ url ∉ seen then l :: dedupGo (url :: seen) ls
    else dedupGo seen ls

/-- `_deduplicate_listings`. -/
def deduplicate_listings (listings : List Listing) : List Listing :=
  dedupGo [] listings

/-- The listings gathered by `apartment_search_tool` for one zip code
before deduplication: each platform's results, classified, concatenated in
platform order. -/
def gathered_listings (env : Env) (zip_code : String) : List Listing :=
  platforms.flatMap
    (fun platform => extract_apartment_listings (env.searchResults platform zip_code)
      platform zip_code)

/-- `apartment_search_tool` for one zip code. -/
def apartment_search_tool (env : Env) (zip_code : String) : List Listing :=
  deduplicate_listings (gathered_listings env zip_code)

/-- One entry of the final output: the listing, the parsed details, the
validation, and the search-metadata zip code (timestamps and the agent
version tag are not modeled). -/
structure Apartment where
  listing : Listing
  details : Apt
  validation : ValidationResult
  zip_code : String

/-- The `zip_priority` dictionary built from `enumerate(zip_codes)` (a
duplicated zip keeps the last index, as dict assignment overwrites), read
with default 999. -/
def zip_priority (zip_codes : List String) (z : String) : Nat :=
  (zip_codes.enum.foldl (fun acc p => if p.2 = z then some p.1 else acc) none).getD 999

/-- The sort key order of `search_apartments`: ascending in
`(-percentage, zip_priority)`, i.e. percentage descending with the zip
priority index as tie-break. -/
def rankLE (zip_codes : List String) (a b : Apartment) : Bool :=
  decide (b.validation.percentage < a.validation.percentage ∨
    (a.validation.percentage = b.validation.percentage ∧
      zip_priority zip_codes a.zip_code ≤ zip_priority zip_codes b.zip_code))

/-- The final sort.  Python's `list.sort` is a stable sort; a stable sort
with respect to a total preorder has a unique result, so the stable
`List.mergeSort` produces exactly the list `list.sort` produces. -/
def sort_apartments (zip_codes : List String) (l : List Apartment) : List Apartment :=
  l.mergeSort (rankLE zip_codes)

/-- The per-listing body of the `search_apartments` loop: fetch the page
(skip the listing when unavailable), parse it, validate, and keep the
apartment only when it passes the criteria. -/
def verified_apartment (env : Env) (zip_code : String) (listing : Listing) :
    Option Apartment :=
  let content := env.pageContent (listing.url.getD "")
  if content = "" then none
  else
    let details := parse_apartment_content content
    let validation := validate_apartment_criteria_tool details
    if validation.passes_criteria then
      some { listing := listing, details := details, validation := validation,
             zip_code := zip_code }
    else none

/-- All candidates accumulated over the zip codes, before the final sort. -/
def all_apartments (env : Env) (zip_codes : List String) : List Apartment :=
  zip_codes.flatMap (fun zip_code =>
    (apartment_search_tool env zip_code).filterMap (verified_apartment env zip_code))

/-- `search_apartments`: gather, verify and validate per zip code, then
sort by validation percentage (descending) with zip priority as
tie-break. -/
def search_apartments (env : Env) (zip_codes : List String) : List Apartment :=
  sort_apartments zip_codes (all_apartments env zip_codes)

/-! ## Concrete instances used in the theorems below -/

/-- The sort key of one apartment: validation percentage and zip priority
(the sort is ascending in `(-percentage, priority)`). -/
def rank_key (zip_codes : List String) (a : Apartment) : ℚ × Nat :=
  (a.validation.percentage, zip_priority zip_codes a.zip_code)

/-- The attribute record of the spec's validator test: price 4800,
2 bedrooms, 1.75 bathrooms, amenity tags `washer_dryer` and
`air_conditioning`. -/
def apt0 : Apt :=
  { price := some 4800, bedrooms := some 2, bathrooms := some (7 / 4),
    sqft := none, amenities := ["washer_dryer", "air_conditioning"] }

/-- An attribute record scoring 20 points (correct bedroom count only). -/
def aptB : Apt :=
  { price := none, bedrooms := some 2, bathrooms := none, sqft := none,
    amenities := [] }

/-- The content of the spec's extraction test. -/
def c5_content : String := "...$4,800/month...2 bed...1.5 bath...950 sq ft..."

/-- A unit-level listing url in a target area (two unit URL patterns match
and the area boost fires, no exclusion substring occurs). -/
def url0 : String := "https://www.apartments.com/mar-vista-ca-90066/unit-12345"

/-- An environment in which one platform returns the same listing url
twice for zip 90066, with fetchable content. -/
def env0 : Env :=
  { searchResults := fun platform zip_code =>
      if platform = "apartments_com" ∧ zip_code = "90066" then
        [{ title := "Charming 2 bed", snippet := "", url := url0 },
         { title := "Charming 2 bed repost", snippet := "", url := url0 }]
      else []
    pageContent := fun url =>
      if url = url0 then "$4,800/month 2 bed 2 ba 950 sqft" else "" }

/-- A listing with a nonempty url, used to instantiate the deduplication
theorems. -/
def listing1 : Listing :=
  { title := "t1", url := some "https://x/1", snippet := "s", platform := "p",
    zip_code := "z" }

/-- Another listing with a nonempty url. -/
def listing2 : Listing :=
  { title := "t2", url := some "https://x/2", snippet := "s", platform := "p",
    zip_code := "z" }

/-! ## Helper lemmas -/

theorem substrB_concatAll_of_mem {s : String} {l : List String} (h : s ∈ l) :
    substrB s (concatAll l) = true := by
  induction l with
  | nil => cases h
  | cons a t ih =>
    have hd : (concatAll (a :: t)).data = a.data ++ (concatAll t).data :=
      String.data_append a (concatAll t)
    rcases List.mem_cons.mp h with rfl | hmem
    · simp only [substrB, decide_eq_true_eq, hd]
      exact ⟨[], (concatAll t).data, by simp⟩
    · have hi := ih hmem
      simp only [substrB, decide_eq_true_eq, hd] at hi ⊢
      rcases hi with ⟨u, v, huv⟩
      exact ⟨a.data ++ u, v, by rw [← huv]; simp⟩

theorem substrB_mem_or {z w : String} {l : List String} (h : z ∈ l) :
    (substrB z (concatAll l) || substrB w (concatAll l)) = true := by
  rw [substrB_concatAll_of_mem h, Bool.true_or]

theorem dedupGo_sublist (seen : List String) (ls : List Listing) :
    List.Sublist (dedupGo seen ls) ls := by
  induction ls generalizing seen with
  | nil => simp [dedupGo]
  | cons x t ih =>
    simp only [dedupGo]
    split
    · exact (ih _).cons₂ x
    · exact (ih seen).cons x

theorem mem_dedupGo (seen : List String) (ls : List Listing) (l : Listing)
    (h : l ∈ dedupGo seen ls) :
    l.url.getD "" ≠ "" ∧ l.url.getD "" ∉ seen := by
  induction ls generalizing seen with
  | nil => simp [dedupGo] at h
  | cons x t ih =>
    simp only [dedupGo] at h
    split at h
    case isTrue hc =>
      rcases List.mem_cons.mp h with rfl | hmem
      · exact hc
      · have hm := ih _ hmem
        exact ⟨hm.1, fun hs => hm.2 (List.mem_cons_of_mem _ hs)⟩
    case isFalse hc => exact ih seen h

theorem dedupGo_pairwise (seen : List String) (ls : List Listing) :
    (dedupGo seen ls).Pairwise (fun a b => a.url.getD "" ≠ b.url.getD "") := by
  induction ls generalizing seen with
  | nil => simp [dedupGo]
  | cons x t ih =>
    simp only [dedupGo]
    split
    case isTrue hc =>
      refine List.Pairwise.cons ?_ (ih _)
      intro b hb heq
      exact (mem_dedupGo _ _ _ hb).2 (heq ▸ List.mem_cons_self _ _)
    case isFalse hc => exact ih seen

theorem dedupGo_find? (u : String) (hu : u ≠ "") (seen : List String)
    (ls : List Listing) (hseen : u ∉ seen) :
    (dedupGo seen ls).find? (fun x => x.url.getD "" == u) =
      ls.find? (fun x => x.url.getD "" == u) := by
  induction ls generalizing seen with
  | nil => rfl
  | cons x t ih =>
    simp only [dedupGo]
    by_cases hx : x.url.getD "" = u
    · rw [if_pos (by rw [hx]; exact ⟨hu, hseen⟩)]
      rw [List.find?_cons, List.find?_cons]
      simp [hx]
    · have hpred : (x.url.getD "" == u) = false := by simp [hx]
      split
      next hc =>
        rw [List.find?_cons, List.find?_cons, hpred]
        exact ih _ (by
          simp only [List.mem_cons, not_or]
          exact ⟨fun he => hx he.symm, hseen⟩)
      next hc =>
        rw [ih seen hseen, List.find?_cons, hpred]

theorem validate_amenities_nil_not_pass (a : Apt) (h : a.amenities = []) :
    (validate_apartment_criteria_tool a).passes_criteria = false := by
  have hfold : search_criteria.required_amenities.foldl
      (fun acc req => if has_amenity [] req then acc + 10 else acc) 0 = 0 := by decide
  simp only [validate_apartment_criteria_tool, h, hfold]
  simp only [decide_eq_false_iff_not, not_le]
  split_ifs <;> norm_num

theorem search_apartments_nil (env : Env) (zip_codes : List String) :
    search_apartments env zip_codes = [] := by
  have h : all_apartments env zip_codes = [] := by
    rw [all_apartments, List.flatMap_eq_nil_iff]
    intro z _
    rw [List.filterMap_eq_nil_iff]
    intro l _
    rw [verified_apartment]
    split
    · rfl
    · simp only [validate_amenities_nil_not_pass
        (parse_apartment_content (env.pageContent (l.url.getD ""))) rfl,
        Bool.false_eq_true, if_false]
  rw [search_apartments, h, sort_apartments, List.mergeSort_nil]

theorem rankLE_trans (zip_codes : List String) : ∀ a b c : Apartment,
    rankLE zip_codes a b = true → rankLE zip_codes b c = true →
    rankLE zip_codes a c = true := by
  intro a b c hab hbc
  simp only [rankLE, decide_eq_true_eq] at hab hbc ⊢
  rcases hab with h1 | ⟨h1, h1'⟩
  · rcases hbc with h2 | ⟨h2, h2'⟩
    · exact Or.inl (h2.trans h1)
    · exact Or.inl (lt_of_eq_of_lt h2.symm h1)
  · rcases hbc with h2 | ⟨h2, h2'⟩
    · exact Or.inl (lt_of_lt_of_eq h2 h1.symm)
    · exact Or.inr ⟨h1.trans h2, h1'.trans h2'⟩

theorem rankLE_total (zip_codes : List String) : ∀ a b : Apartment,
    (rankLE zip_codes a b || rankLE zip_codes b a) = true := by
  intro a b
  simp only [rankLE, Bool.or_eq_true, decide_eq_true_eq]
  rcases lt_trichotomy a.validation.percentage b.validation.percentage with h | h | h
  · exact Or.inr (Or.inl h)
  · rcases Nat.le_total (zip_priority zip_codes a.zip_code)
      (zip_priority zip_codes b.zip_code) with hle | hle
    · exact Or.inl (Or.inr ⟨h, hle⟩)
    · exact Or.inr (Or.inr ⟨h.symm, hle⟩)
  · exact Or.inl (Or.inl h)

theorem sort_filter_key (zip_codes : List String) (l : List Apartment) (k : ℚ × Nat) :
    (sort_apartments zip_codes l).filter (fun a => decide (rank_key zip_codes a = k)) =
      l.filter (fun a => decide (rank_key zip_codes a = k)) := by
  have hpw : (l.filter (fun a => decide (rank_key zip_codes a = k))).Pairwise
      (fun a b => rankLE zip_codes a b = true) := by
    apply List.pairwise_of_forall_mem_list
    intro a ha b hb
    have ha' := (List.mem_filter.mp ha).2
    have hb' := (List.mem_filter.mp hb).2
    rw [decide_eq_true_eq] at ha' hb'
    have hperc : a.validation.percentage = b.validation.percentage := by
      have := congrArg Prod.fst ha'
      have hb2 := congrArg Prod.fst hb'
      simp only [rank_key] at this hb2
      rw [this, hb2]
    have hprio : zip_priority zip_codes a.zip_code = zip_priority zip_codes b.zip_code := by
      have := congrArg Prod.snd ha'
      have hb2 := congrArg Prod.snd hb'
      simp only [rank_key] at this hb2
      rw [this, hb2]
    simp only [rankLE, decide_eq_true_eq]
    exact Or.inr ⟨hperc, le_of_eq hprio⟩
  have hstab : List.Sublist (l.filter (fun a => decide (rank_key zip_codes a = k)))
      (sort_apartments zip_codes l) :=
    List.sublist_mergeSort (rankLE_trans zip_codes) (rankLE_total zip_codes) hpw
      (l.filter_sublist)
  have hsub2 : List.Sublist (l.filter (fun a => decide (rank_key zip_codes a = k)))
      ((sort_apartments zip_codes l).filter (fun a => decide (rank_key zip_codes a = k))) := by
    have hss := hstab.filter (fun a => decide (rank_key zip_codes a = k))
    have heq : (l.filter (fun a => decide (rank_key zip_codes a = k))).filter
        (fun a => decide (rank_key zip_codes a = k)) =
        l.filter (fun a => decide (rank_key zip_codes a = k)) := by
      rw [List.filter_filter]
      congr 1
      funext a
      rw [Bool.and_self]
    rwa [heq] at hss
  have hperm : ((sort_apartments zip_codes l).filter
      (fun a => decide (rank_key zip_codes a = k))).Perm
      (l.filter (fun a => decide (rank_key zip_codes a = k))) :=
    (List.mergeSort_perm l _).filter _
  exact (hsub2.eq_of_length hperm.length_eq.symm).symm

theorem le_decVal_of_decLe {a b : Nat × Nat} (h : decLe a b = true) :
    decVal a ≤ decVal b := by
  simp only [decLe, decide_eq_true_eq] at h
  simp only [decVal]
  rw [div_le_div_iff₀ (by positivity) (by positivity)]
  exact_mod_cast h

theorem roundTo1_div_mul (s : Nat) : roundTo1 ((s : ℚ) / 100 * 100) = (s : ℚ) := by
  rw [div_mul_cancel₀ _ (by norm_num : (100 : ℚ) ≠ 0)]
  simp only [roundTo1]
  rw [show ((s : ℚ) * 10) = (((s * 10 : ℕ) : ℤ) : ℚ) by push_cast; ring]
  rw [round_intCast]
  push_cast
  field_simp

theorem percentage_eq_score (a : Apt) :
    (validate_apartment_criteria_tool a).percentage =
      ((validate_apartment_criteria_tool a).score : ℚ) := by
  show roundTo1 (((validate_apartment_criteria_tool a).score : ℚ) / ((100 : ℕ) : ℚ) * 100) = _
  rw [show ((100 : ℕ) : ℚ) = (100 : ℚ) by norm_num]
  exact roundTo1_div_mul _

theorem validate_apt0_score : (validate_apartment_criteria_tool apt0).score = 60 := by
  simp [validate_apartment_criteria_tool, search_criteria, has_amenity, apt0]
  norm_num

/-! ## Claims -/

/-- Claim C1, counterexample: on the attributes (price 4800, 2 bedrooms,
1.75 bathrooms, amenity tags washer_dryer and air_conditioning) the
validator does not produce score 80 with a pass: it produces score 60
(price 25 + bedrooms 20 + bathrooms 15 + amenities 0) and fails, because
the default criteria's required-amenity names are display strings such as
"In-unit washer/dryer" that match neither the provided tags nor the synonym
table's keys, and the special-cased name is "above_ground_floor", not
"Above ground floor". -/
theorem c1_counterexample :
    ¬((validate_apartment_criteria_tool apt0).score = 80 ∧
      (validate_apartment_criteria_tool apt0).passes_criteria = true) := by
  intro h
  have h1 := h.1
  rw [validate_apt0_score] at h1
  exact absurd h1 (by norm_num)

/-- Claim C1, amended: on those attributes the validator yields total score
exactly 60 and passes_criteria false; the pass flag is computed as
score ≥ 80, so a score equal to the threshold 80 would pass. -/
theorem c1_theorem :
    (validate_apartment_criteria_tool apt0).score = 60 ∧
    (validate_apartment_criteria_tool apt0).passes_criteria = false ∧
    ∀ a : Apt, (validate_apartment_criteria_tool a).passes_criteria =
      decide (80 ≤ (validate_apartment_criteria_tool a).score) := by
  refine ⟨validate_apt0_score, ?_, fun a => rfl⟩
  rw [show (validate_apartment_criteria_tool apt0).passes_criteria =
    decide (80 ≤ (validate_apartment_criteria_tool apt0).score) from rfl,
    validate_apt0_score]
  decide

/-- Claim C2, counterexample: in the content "$500/mo or $4,800/mo",
price pattern 1 has a match (at offset 11) whose captured value 4800 passes
the plausibility filter, yet extraction leaves the price absent: each
pattern's first match is "$500/mo", whose value 500 fails the filter, and
the extractor then abandons that pattern instead of trying its later
matches. -/
theorem c2_counterexample :
    reMatchAt pricePat1 "$500/mo or $4,800/mo" 11 = some ['4', ',', '8', '0', '0'] ∧
    1000 ≤ digitsNat ['4', ',', '8', '0', '0'] ∧
    digitsNat ['4', ',', '8', '0', '0'] ≤ 15000 ∧
    extract_price "$500/mo or $4,800/mo" = none := by
  refine ⟨by decide, by decide, by decide, by decide⟩

/-- Claim C2, amended: for each price pattern in order, only the pattern's
first match is tested against the plausibility filter; if it passes, its
value is returned, and otherwise the next pattern is tried (so an
implausible first match of one pattern does not prevent a later pattern's
first match from winning, but it does suppress later matches of the same
pattern); when every pattern's first match is absent or implausible the
price is absent. -/
theorem c2_theorem :
    (∀ c v, priceStep pricePat1 c = some v → extract_price c = some v) ∧
    (∀ c v, priceStep pricePat1 c = none → priceStep pricePat2 c = some v →
      extract_price c = some v) ∧
    (∀ c v, priceStep pricePat1 c = none → priceStep pricePat2 c = none →
      priceStep pricePat3 c = some v → extract_price c = some v) ∧
    (∀ c, priceStep pricePat1 c = none → priceStep pricePat2 c = none →
      priceStep pricePat3 c = none → extract_price c = none) := by
  refine ⟨?_, ?_, ?_, ?_⟩
  · intro c v h1
    simp [extract_price, List.findSome?_cons, h1]
  · intro c v h1 h2
    simp [extract_price, List.findSome?_cons, h1, h2]
  · intro c v h1 h2 h3
    simp [extract_price, List.findSome?_cons, h1, h2, h3]
  · intro c h1 h2 h3
    simp [extract_price, List.findSome?_cons, h1, h2, h3]

/-- Claim C2, witness: a plausible first match of pattern 2 wins after
pattern 1 matches nowhere. -/
theorem c2_witness : extract_price "rent is $1,200 monthly" = some 1200 :=
  c2_theorem.2.1 "rent is $1,200 monthly" 1200 (by decide) (by decide)

/-- Claim C3, counterexample: in an environment where one platform returns
the same listing url twice for one area, two gathered candidates share that
url, yet the final ranked output does not keep the first-seen one — it is
empty, because the verification parser never yields an amenities entry and
the validation gate (score ≥ 80 with at most 60 attainable points) then
rejects every candidate. -/
theorem c3_counterexample :
    (gathered_listings env0 "90066").countP (fun l => l.url == some url0) = 2 ∧
    search_apartments env0 ["90066"] = [] :=
  ⟨by decide, search_apartments_nil env0 ["90066"]⟩

/-- Claim C3, amended: the final ranked output never contains two entries
with the same url, but only vacuously — under the fixed criteria no
candidate ever passes validation, so the full-run output is always empty;
deduplication itself operates per area-search, keeps the first-seen listing
per nonempty url (the first occurrence is returned for every url), and
preserves the order of first appearance (the output is a sublist of the
input) with no two kept entries sharing a url. -/
theorem c3_theorem :
    (∀ (env : Env) (zip_codes : List String), search_apartments env zip_codes = []) ∧
    (∀ (env : Env) (zip_codes : List String),
      (search_apartments env zip_codes).Pairwise
        (fun a b => a.listing.url ≠ b.listing.url)) ∧
    (∀ ls : List Listing, (deduplicate_listings ls).Pairwise
      (fun a b => a.url.getD "" ≠ b.url.getD "")) ∧
    (∀ ls : List Listing, List.Sublist (deduplicate_listings ls) ls) ∧
    (∀ (u : String) (ls : List Listing), u ≠ "" →
      (deduplicate_listings ls).find? (fun x => x.url.getD "" == u) =
        ls.find? (fun x => x.url.getD "" == u)) := by
  refine ⟨search_apartments_nil, ?_, ?_, ?_, ?_⟩
  · intro env zips
    rw [search_apartments_nil]
    exact List.Pairwise.nil
  · intro ls
    rw [deduplicate_listings]
    exact dedupGo_pairwise [] ls
  · intro ls
    rw [deduplicate_listings]
    exact dedupGo_sublist [] ls
  · intro u ls hu
    rw [deduplicate_listings]
    exact dedupGo_find? u hu [] ls (by simp)

/-- Claim C3, witness: first-occurrence preservation applied to a concrete
one-element list. -/
theorem c3_witness :
    (deduplicate_listings [listing2, listing1]).find?
        (fun x => x.url.getD "" == "https://x/1") =
      [listing2, listing1].find? (fun x => x.url.getD "" == "https://x/1") :=
  c3_theorem.2.2.2.2 "https://x/1" [listing2, listing1] (by decide)

/-- Claim C4: the classifier accepts exactly when the combined score —
indicator count plus twice the pattern-match count plus three times the
URL-match count, plus 3 when the url contains a target-area slug or zip
code — is at least 4 and the url contains no aggregation-page exclusion
substring; in particular any url containing an excluded substring is
rejected regardless of title and snippet. -/
theorem c4_theorem :
    (∀ title snippet url, is_apartment_listing title snippet url =
      (decide (4 ≤ indicator_count title snippet +
        2 * pattern_match_count title snippet + 3 * url_match_count url +
        (if target_area_boost url then 3 else 0)) && !is_search_page url)) ∧
    (∀ title snippet url, is_search_page url = true →
      is_apartment_listing title snippet url = false) := by
  constructor
  · intro t s u
    rw [is_apartment_listing]
    have h : listing_score t s u = indicator_count t s +
        2 * pattern_match_count t s + 3 * url_match_count u +
        (if target_area_boost u then 3 else 0) := by
      rw [listing_score]; ring
    rw [h]
  · intro t s u h
    rw [is_apartment_listing, h]
    simp

/-- Claim C4, witness: a url containing the excluded substring "search" is
rejected even though its title and snippet are listing-like. -/
theorem c4_witness :
    is_apartment_listing "Great apartment" "2 bed 2 bath" "https://apartments.com/search/all" =
      false :=
  c4_theorem.2 "Great apartment" "2 bed 2 bath" "https://apartments.com/search/all"
    (by decide)

/-- Claim C5: extracting from the content
"...$4,800/month...2 bed...1.5 bath...950 sq ft..." yields price 4800,
2 bedrooms, 1.5 bathrooms and 950 square feet. -/
theorem c5_theorem :
    (extract_apartment_details_tool c5_content).price = some 4800 ∧
    (extract_apartment_details_tool c5_content).bedrooms = some 2 ∧
    (extract_apartment_details_tool c5_content).bathrooms = some (3 / 2 : ℚ) ∧
    (extract_apartment_details_tool c5_content).sqft = some 950 := by
  refine ⟨by decide, by decide, ?_, by decide⟩
  show extract_bathrooms c5_content = some (3 / 2 : ℚ)
  have h : bathrooms_raw c5_content = some (15, 1) := by decide
  rw [extract_bathrooms, h]
  simp only [Option.map_some']
  norm_num [decVal]

/-- Claim C6: every populated numeric field lies in its plausibility range
(price 1000 to 15000, bedrooms at most 5, bathrooms 0.5 to 5, square
footage 300 to 5000); in particular content whose only dollar amount is 500
or 20000 leaves the price absent. -/
theorem c6_theorem :
    (∀ c v, extract_price c = some v → 1000 ≤ v ∧ v ≤ 15000) ∧
    (∀ c v, extract_bedrooms c = some v → v ≤ 5) ∧
    (∀ c q, extract_bathrooms c = some q → 1 / 2 ≤ q ∧ q ≤ 5) ∧
    (∀ c v, extract_sqft c = some v → 300 ≤ v ∧ v ≤ 5000) ∧
    extract_price "Deposit $500 due at signing" = none ∧
    extract_price "Penthouse at $20,000/month exclusive" = none := by
  refine ⟨?_, ?_, ?_, ?_, by decide, by decide⟩
  · intro c v h
    rw [extract_price] at h
    obtain ⟨pat, _, hstep⟩ := List.exists_of_findSome?_eq_some h
    simp only [priceStep] at hstep
    split at hstep
    next g hg =>
      split at hstep
      next hrange => cases hstep; exact hrange
      next => cases hstep
    next => cases hstep
  · intro c v h
    rw [extract_bedrooms] at h
    obtain ⟨pat, _, hstep⟩ := List.exists_of_findSome?_eq_some h
    simp only [bedStep] at hstep
    split at hstep
    next g hg =>
      split at hstep
      next hrange => cases hstep; exact hrange
      next => cases hstep
    next => cases hstep
  · intro c q h
    rw [extract_bathrooms] at h
    rcases Option.map_eq_some'.mp h with ⟨pr, hraw, hval⟩
    rw [bathrooms_raw] at hraw
    obtain ⟨pat, _, hstep⟩ := List.exists_of_findSome?_eq_some hraw
    simp only [bathStep] at hstep
    split at hstep
    next g hg =>
      split at hstep
      next hrange =>
        cases hstep
        subst hval
        constructor
        · have h1 := le_decVal_of_decLe hrange.1
          have he : decVal (5, 1) = 1 / 2 := by norm_num [decVal]
          rwa [he] at h1
        · have h2 := le_decVal_of_decLe hrange.2
          have he : decVal (5, 0) = 5 := by norm_num [decVal]
          rwa [he] at h2
      next => cases hstep
    next => cases hstep
  · intro c v h
    rw [extract_sqft] at h
    obtain ⟨pat, _, hstep⟩ := List.exists_of_findSome?_eq_some h
    simp only [sqftStep] at hstep
    split at hstep
    next g hg =>
      split at hstep
      next hrange => cases hstep; exact hrange
      next => cases hstep
    next => cases hstep

/-- Claim C6, witness: the price-range invariant applied at a concrete
extraction. -/
theorem c6_witness : 1000 ≤ 4800 ∧ 4800 ≤ 15000 :=
  c6_theorem.1 "$4,800/mo" 4800 (by decide)

/-- Claim C7: the final output is the (stable) sort of the accumulated
candidates by validation percentage descending with the zip-priority index
ascending as tie-break: the sorted list is a permutation of the input,
consecutive entries are ordered by that key, and entries whose keys are
equal keep their prior relative order. -/
theorem c7_theorem :
    (∀ (env : Env) (zip_codes : List String), search_apartments env zip_codes =
      sort_apartments zip_codes (all_apartments env zip_codes)) ∧
    (∀ (zip_codes : List String) (l : List Apartment),
      (sort_apartments zip_codes l).Perm l) ∧
    (∀ (zip_codes : List String) (l : List Apartment),
      (sort_apartments zip_codes l).Pairwise
        (fun a b => b.validation.percentage < a.validation.percentage ∨
          (a.validation.percentage = b.validation.percentage ∧
            zip_priority zip_codes a.zip_code ≤ zip_priority zip_codes b.zip_code))) ∧
    (∀ (zip_codes : List String) (l : List Apartment) (k : ℚ × Nat),
      (sort_apartments zip_codes l).filter (fun a => decide (rank_key zip_codes a = k)) =
        l.filter (fun a => decide (rank_key zip_codes a = k))) := by
  refine ⟨fun env zips => rfl, ?_, ?_, sort_filter_key⟩
  · intro zips l
    rw [sort_apartments]
    exact List.mergeSort_perm l _
  · intro zips l
    rw [sort_apartments]
    have hs := List.sorted_mergeSort (rankLE_trans zips) (rankLE_total zips) l
    refine hs.imp ?_
    intro a b hab
    simpa only [rankLE, decide_eq_true_eq] using hab

/-- Claim C8: for every criteria record and area code, the query composer
returns exactly one query per configured source, and every query contains
the area's zip code (hence the zip code or the display name), the bedroom
count, and both price bounds as substrings. -/
theorem c8_theorem : ∀ (zip_code : String) (criteria : SearchCriteria),
    ((generate_search_queries zip_code criteria).map Prod.fst =
      ["apartments_com", "zillow", "trulia", "hotpads", "westside_rentals",
       "realtor_com", "rentcafe", "rent_com"]) ∧
    ∀ pq ∈ generate_search_queries zip_code criteria,
      (substrB zip_code pq.2 || substrB (area_name zip_code) pq.2) = true ∧
      substrB (toString criteria.bedrooms) pq.2 = true ∧
      substrB (toString criteria.min_rent) pq.2 = true ∧
      substrB (toString criteria.max_rent) pq.2 = true := by
  intro zip_code criteria
  refine ⟨rfl, ?_⟩
  intro pq hpq
  simp only [generate_search_queries, List.mem_cons, List.not_mem_nil, or_false] at hpq
  rcases hpq with h | h | h | h | h | h | h | h <;> subst h <;>
    simp only [query_apartments_com, query_zillow, query_trulia, query_hotpads,
      query_westside_rentals, query_realtor_com, query_rentcafe, query_rent_com] <;>
    exact ⟨substrB_mem_or (by simp), substrB_concatAll_of_mem (by simp),
      substrB_concatAll_of_mem (by simp), substrB_concatAll_of_mem (by simp)⟩

/-- Claim C8, witness: the containments at the default criteria, zip 90066,
apartments.com query. -/
theorem c8_witness :
    (substrB "90066" ("apartments_com", query_apartments_com "90066" search_criteria).2 ||
      substrB (area_name "90066")
        ("apartments_com", query_apartments_com "90066" search_criteria).2) = true ∧
    substrB (toString search_criteria.bedrooms)
      ("apartments_com", query_apartments_com "90066" search_criteria).2 = true ∧
    substrB (toString search_criteria.min_rent)
      ("apartments_com", query_apartments_com "90066" search_criteria).2 = true ∧
    substrB (toString search_criteria.max_rent)
      ("apartments_com", query_apartments_com "90066" search_criteria).2 = true :=
  ( c8_theorem "90066" search_criteria).2
    ("apartments_com", query_apartments_com "90066" search_criteria)
    (by simp [generate_search_queries])

/-- Claim C9, counterexample: on a record scoring 20 points the percentage
field is 20.0, not 0.2 — it is not score/100 rounded to one decimal. -/
theorem c9_counterexample :
    (validate_apartment_criteria_tool aptB).percentage ≠
      roundTo1 (((validate_apartment_criteria_tool aptB).score : ℚ) / 100) := by
  have hs : (validate_apartment_criteria_tool aptB).score = 20 := by
    simp [validate_apartment_criteria_tool, search_criteria, has_amenity, aptB]
  rw [percentage_eq_score, hs]
  rw [roundTo1, show ((20 : ℕ) : ℚ) / 100 * 10 = ((2 : ℤ) : ℚ) by push_cast; norm_num,
    round_intCast]
  norm_num

/-- Claim C9, amended: the percentage equals
round(score / max_score × 100, 1), which — since max_score is 100 and the
score is an integer — is numerically the score itself, not score/100. -/
theorem c9_theorem : ∀ a : Apt,
    (validate_apartment_criteria_tool a).percentage =
      roundTo1 (((validate_apartment_criteria_tool a).score : ℚ) /
        ((validate_apartment_criteria_tool a).max_score : ℚ) * 100) ∧
    (validate_apartment_criteria_tool a).percentage =
      ((validate_apartment_criteria_tool a).score : ℚ) := by
  intro a
  exact ⟨rfl, percentage_eq_score a⟩

/-- Claim C10: a listing whose url entry is absent or empty never appears
in the deduplicated output, whatever its other fields. -/
theorem c10_theorem : ∀ (ls : List Listing) (l : Listing),
    l ∈ deduplicate_listings ls → l.url ≠ none ∧ l.url ≠ some "" := by
  intro ls l h
  rw [deduplicate_listings] at h
  have hm := (mem_dedupGo [] ls l h).1
  cases hl : l.url with
  | none =>
    rw [hl] at hm
    simp at hm
  | some s =>
    rw [hl] at hm
    simp only [Option.getD_some] at hm
    exact ⟨by simp, by simpa using hm⟩

/-- Claim C10, witness: a kept listing has a nonempty url. -/
theorem c10_witness : listing2.url ≠ none ∧ listing2.url ≠ some "" :=
  c10_theorem [listing2] listing2 (by decide)

end ApartmentSearch
